import Mathlib

/-
Verification development for the philoking conversation system.

The definitions below are shallow embeddings of the Go source:
  - internal/types/message.go          (ChatMessage, Metadata, MessageType)
  - internal/conversation (Manager)    (Conversation, Participant, AddMessage,
                                        GetRecentMessages, IsRelevantToAgent,
                                        GetOrCreateConversation, GetConversationContext)
  - internal/conversation/flow.go      (handleMessage, detectTopic, detectMood)
  - internal/agent (NaturalAgent)      (shouldRespond in both repo variants,
                                        HandleSystemMessage, generateSystemResponse)
  - internal/agent/llm.go              (both HandleMessage variants)

Randomness (rand.Float64 / rand.Intn) is modelled by explicit draw parameters,
Go map iteration order by an explicit order list, wall-clock time by a Nat
parameter, and Go slice-expression panics by Option (none = panic).
-/

namespace Philoking

/-- Go strings.Contains helper: `listHasPre pat txt` is true when `pat` is an
initial segment of `txt`. -/
def listHasPre : List Char → List Char → Bool
  | [], _ => true
  | _ :: _, [] => false
  | p :: ps, t :: ts => p == t && listHasPre ps ts

/-- Go strings.Contains helper: `listHasSub pat txt` is true when `pat` occurs
contiguously inside `txt`. -/
def listHasSub : List Char → List Char → Bool
  | pat, [] => pat.isEmpty
  | pat, t :: ts => listHasPre pat (t :: ts) || listHasSub pat ts

/-- Model of Go `strings.Contains s sub`. -/
def goContains (s sub : String) : Bool :=
  listHasSub sub.toList s.toList

/-- Model of Go `strings.ToLower` (ASCII case folding as used by the source). -/
def strLower (s : String) : String :=
  String.mk (s.toList.map Char.toLower)

/-- internal/types/message.go: MessageType. -/
inductive MessageType where
  | user
  | agent
  | system
  | context
deriving Repr, DecidableEq, BEq

/-- internal/types/message.go: Metadata.  The Custom map is an association
list. -/
structure Metadata where
  conversationID : String
  replyTo : String
  fromAgent : String
  tags : List String
  custom : List (String × String)
deriving Repr, DecidableEq

/-- internal/types/message.go: ChatMessage.  Timestamps are modelled as Nat. -/
structure ChatMessage where
  id : String
  type : MessageType
  content : String
  agentID : String
  userID : String
  timestamp : Nat
  metadata : Metadata
deriving Repr, DecidableEq

/-- Empty metadata (Go zero value). -/
def emptyMeta : Metadata :=
  { conversationID := "", replyTo := "", fromAgent := "", tags := [], custom := [] }

/-- internal/conversation: Participant. -/
structure Participant where
  id : String
  name : String
  type : String
  isActive : Bool
  lastSeen : Nat
  capabilities : List String
  personality : String
deriving Repr, DecidableEq

/-- internal/conversation: Conversation.  The Participants map is an
association list keyed by participant id. -/
structure Conversation where
  id : String
  participants : List (String × Participant)
  messages : List ChatMessage
  topic : String
  mood : String
  createdAt : Nat
  updatedAt : Nat
deriving Repr, DecidableEq

/-- Conversation freshly created by GetOrCreateConversation. -/
def newConversation (cid : String) (now : Nat) : Conversation :=
  { id := cid, participants := [], messages := [], topic := "", mood := "",
    createdAt := now, updatedAt := now }

/-- flow.go detectTopic: the fixed keyword table, in source textual order.
The Go code iterates it with `for topic, keywords := range topics` over a map,
so the actual iteration order is an arbitrary permutation of this list. -/
def topicsTable : List (String × List String) :=
  [("technology", ["code", "programming", "software", "computer", "tech", "ai", "machine learning"]),
   ("philosophy", ["think", "believe", "meaning", "purpose", "existence", "truth", "reality"]),
   ("science", ["research", "study", "experiment", "theory", "hypothesis", "data"]),
   ("art", ["creative", "artistic", "design", "beautiful", "aesthetic", "music"]),
   ("politics", ["government", "policy", "election", "democracy", "rights", "law"]),
   ("health", ["health", "medical", "doctor", "medicine", "wellness", "fitness"]),
   ("travel", ["travel", "trip", "vacation", "journey", "adventure", "explore"]),
   ("food", ["food", "cooking", "recipe", "restaurant", "meal", "taste"])]

/-- flow.go detectMood: the fixed keyword table, in source textual order. -/
def moodsTable : List (String × List String) :=
  [("excited", ["excited", "amazing", "awesome", "fantastic", "wow", "incredible"]),
   ("curious", ["wonder", "curious", "interesting", "fascinating", "intriguing"]),
   ("concerned", ["worried", "concerned", "problem", "issue", "trouble", "difficult"]),
   ("happy", ["happy", "joy", "pleased", "delighted", "cheerful", "glad"]),
   ("serious", ["serious", "important", "critical", "urgent", "matter"]),
   ("casual", ["casual", "relaxed", "easy", "simple", "chill"])]

/-- flow.go detectTopic / detectMood inner loops: return the first label (in
iteration order) one of whose keywords occurs in `content`; otherwise "". -/
def firstLabel (content : String) : List (String × List String) → String
  | [] => ""
  | (label, kws) :: rest =>
    if kws.any (fun kw => goContains content kw) then label
    else firstLabel content rest

/-- flow.go detectTopic, with the map iteration order made explicit: the Go
runtime supplies some permutation of `topicsTable` on every call. -/
def detectTopicWith (order : List (String × List String)) (content : String) : String :=
  firstLabel (strLower content) order

/-- flow.go detectMood, with the map iteration order made explicit. -/
def detectMoodWith (order : List (String × List String)) (content : String) : String :=
  firstLabel (strLower content) order

/-- Manager.GetRecentMessages, operating on the conversation history.  The
result is `none` where the Go slice expression `Messages[len-limit:]` is out
of range and panics (for a slice `a[low:]`, Go requires `0 ≤ low ≤ len(a)`). -/
def GetRecentMessages (msgs : List ChatMessage) (limit : Int) : Option (List ChatMessage) :=
  if (msgs.length : Int) ≤ limit then some msgs
  else if 0 ≤ limit then some (msgs.drop (msgs.length - limit.toNat)) else none

/-- Manager.AddMessage participant update: Go writes `LastSeen` through the
map entry only when the participant already exists; keys never change. -/
def touchParticipant (ps : List (String × Participant)) (pid : String) (now : Nat) :
    List (String × Participant) :=
  ps.map (fun kv => if kv.fst == pid then (kv.fst, { kv.snd with lastSeen := now }) else kv)

/-- Manager.AddMessage on the (already fetched) conversation: append to
history, bump UpdatedAt, and touch the sender's LastSeen if registered. -/
def AddMessage (conv : Conversation) (m : ChatMessage) (now : Nat) : Conversation :=
  let pid := if m.agentID == "" then m.userID else m.agentID
  { conv with
    messages := conv.messages ++ [m],
    updatedAt := now,
    participants := if pid == "" then conv.participants else touchParticipant conv.participants pid now }

/-- Appending a batch of messages in arrival order (repeated AddMessage). -/
def appendMessages (conv : Conversation) (ms : List ChatMessage) (now : Nat) : Conversation :=
  ms.foldl (fun c m => AddMessage c m now) conv

/-- flow.go (second variant) handleMessage: AddMessage, then set the topic if
detectTopic yields a label, then set the mood if detectMood yields a label.
The two map iteration orders are explicit parameters. -/
def handleMessage (conv : Conversation) (m : ChatMessage)
    (topicOrder moodOrder : List (String × List String)) (now : Nat) : Conversation :=
  let c1 := AddMessage conv m now
  let t := detectTopicWith topicOrder m.content
  let c2 := if t == "" then c1 else { c1 with topic := t, updatedAt := now }
  let md := detectMoodWith moodOrder m.content
  if md == "" then c2 else { c2 with mood := md, updatedAt := now }

/-- rand.Float64 draw in the overhear branch of IsRelevantToAgent. -/
def overhearChance : ℚ := 3/10

/-- Manager.IsRelevantToAgent (full variant used by the natural agent).  The
`overhearDraw` parameter is the rand.Float64 value of the final 30% branch. -/
def IsRelevantToAgent (msg : ChatMessage) (agentID : String) (capabilities : List String)
    (personality : String) (overhearDraw : ℚ) : Bool :=
  if msg.type == MessageType.system then true
  else if msg.metadata.replyTo == agentID then true
  else
    let content := strLower msg.content
    if capabilities.any (fun capability => goContains content (strLower capability)) then true
    else if msg.metadata.custom.lookup "relevance" == some "high" then true
    else if personality == "curious" &&
        (goContains content "?" || goContains content "what" || goContains content "how") then true
    else if personality == "helpful" &&
        (goContains content "help" || goContains content "problem" || goContains content "issue") then true
    else if personality == "social" &&
        (goContains content "hello" || goContains content "hi" || goContains content "greeting") then true
    else if overhearDraw < overhearChance then true
    else false

/-- NaturalAgent configuration (part_003 variant: personality, interests and
a response chance; the simpler variants only use id and responseChance). -/
structure NaturalAgent where
  id : String
  name : String
  personality : String
  interests : List String
  responseChance : ℚ
deriving Repr, DecidableEq

/-- Number of history entries authored by `agentID` (the anti-spam counter
loop in shouldRespond). -/
def countAgentMsgs (agentID : String) (msgs : List ChatMessage) : Nat :=
  msgs.countP (fun m => m.agentID == agentID)

/-- GetRecentMessages(conversationID, 5) as the Go code applies it inside
shouldRespond: the last 5 history entries (all of them when fewer). -/
def last5 (msgs : List ChatMessage) : List ChatMessage :=
  msgs.drop (msgs.length - 5)

/-- NaturalAgent.shouldRespond, part_003 variant: relevance gate, then
self-suppression, then the probability gate (`rand.Float64() > responseChance`
refuses), then the anti-spam cap over the last 5 history entries.  The two
rand.Float64 draws are the explicit parameters `overhearDraw`/`chanceDraw`,
and `history` is the conversation history read by GetRecentMessages. -/
def shouldRespond (a : NaturalAgent) (msg : ChatMessage) (overhearDraw chanceDraw : ℚ)
    (history : List ChatMessage) : Bool :=
  if !(IsRelevantToAgent msg a.id a.interests a.personality overhearDraw) then false
  else if msg.agentID == a.id then false
  else if chanceDraw > a.responseChance then false
  else if 2 ≤ countAgentMsgs a.id (last5 history) then false
  else true

/-- NaturalAgent.shouldRespond, natural.go / part_002 variant: no relevance
gate; self-suppression, probability gate, anti-spam cap. -/
def shouldRespondSimple (selfID : String) (responseChance : ℚ) (msg : ChatMessage)
    (chanceDraw : ℚ) (history : List ChatMessage) : Bool :=
  if msg.agentID == selfID then false
  else if chanceDraw > responseChance then false
  else if 2 ≤ countAgentMsgs selfID (last5 history) then false
  else true

/-- part_003 generateSystemResponse template table, indexed by the
rand.Intn(5) draw. -/
def sysTemplate : Nat → String
  | 0 => "I understand the system message."
  | 1 => "Got it, thanks for the update."
  | 2 => "I\x27ll keep that in mind."
  | 3 => "Understood."
  | _ => "Noted."

/-- part_003 generateSystemResponse: a uniformly drawn template (the draw `k`
is reduced mod 5, the table size). -/
def generateSystemResponse (k : Nat) : String :=
  sysTemplate (k % 5)

/-- part_003 HandleSystemMessage: generate a canned response and publish it
via SendChatMessage unless it is empty.  The published pair is
(content, conversationID); no gate of shouldRespond is consulted. -/
def HandleSystemMessage (k : Nat) (m : ChatMessage) : Option (String × String) :=
  let response := generateSystemResponse k
  if response == "" then none
  else some (response, m.metadata.conversationID)

/-- llm.go first HandleMessage variant (lines 90-105): on a generation error
the response is replaced by a fixed apology and still published. -/
def llmApology : String :=
  "I\x27m sorry, I\x27m having trouble processing your request right now. Please try again later."

/-- llm.go first HandleMessage variant: publication decision given the
outcome of generateResponse.  The published pair is (content, conversationID). -/
def HandleMessageLLMv1 (gen : Except String String) (conversationID : String) :
    Option (String × String) :=
  match gen with
  | Except.error _ => some (llmApology, conversationID)
  | Except.ok response => some (response, conversationID)

/-- llm.go second HandleMessage variant (lines 355-373): on a generation
error nothing is published (`return nil`). -/
def HandleMessageLLMv2 (gen : Except String String) (conversationID : String) :
    Option (String × String) :=
  match gen with
  | Except.error _ => none
  | Except.ok response => some (response, conversationID)

namespace PtrModel

/-- Pointer-level model of the conversation Manager: `heap` holds the
allocated Conversation objects (a pointer is an index into it) and `convs`
is the Go map `conversations map[string]*Conversation`, holding pointers. -/
structure Manager where
  heap : List Conversation
  convs : List (String × Nat)
deriving Repr, DecidableEq

/-- Manager.GetOrCreateConversation: return the stored pointer when present,
otherwise allocate a fresh Conversation and store its pointer in the map.
The returned value is a pointer, exactly as in the Go code. -/
def GetOrCreateConversation (st : Manager) (cid : String) (now : Nat) : Nat × Manager :=
  match st.convs.lookup cid with
  | some p => (p, st)
  | none =>
      let p := st.heap.length
      (p, { heap := st.heap ++ [newConversation cid now], convs := st.convs ++ [(cid, p)] })

/-- Manager.GetConversationContext: `return m.GetOrCreateConversation(id)` —
it hands the caller the pointer itself, not a copy. -/
def GetConversationContext (st : Manager) (cid : String) (now : Nat) : Nat × Manager :=
  GetOrCreateConversation st cid now

/-- A caller mutating the object behind a returned pointer, outside any Store
method (possible in Go because the pointer aliases the Store's own state). -/
def writeThrough (st : Manager) (p : Nat) (c : Conversation) : Manager :=
  { st with heap := st.heap.set p c }

/-- What a caller subsequently observes through the Store for `cid`: fetch
the conversation via GetConversationContext and read its topic. -/
def observeTopic (st : Manager) (cid : String) (now : Nat) : String :=
  let r := GetConversationContext st cid now
  (r.2.heap.getD r.1 (newConversation cid now)).topic

end PtrModel

/-- Histories of one conversation reachable by the part_003 message
processing: any message by somebody else may arrive on the stream (and is
appended by the flow coordinator), the agent may append a reply admitted by
shouldRespond, and — via HandleSystemMessage — the agent replies to a
System-kind message on the stream with no shouldRespond check at all. -/
inductive Reach (a : NaturalAgent) : List ChatMessage → Prop where
  | nil : Reach a []
  | other (h : List ChatMessage) (m : ChatMessage) (hr : Reach a h)
      (hm : (m.agentID == a.id) = false) : Reach a (h ++ [m])
  | reply (h : List ChatMessage) (trigger reply : ChatMessage) (d1 d2 : ℚ)
      (hr : Reach a h)
      (hs : shouldRespond a trigger d1 d2 h = true)
      (hid : reply.agentID = a.id) : Reach a (h ++ [reply])
  | sysReply (h : List ChatMessage) (trigger reply : ChatMessage) (hr : Reach a h)
      (htrig : trigger.type = MessageType.system)
      (htm : (trigger.agentID == a.id) = false)
      (hmem : trigger ∈ h)
      (hid : reply.agentID = a.id) : Reach a (h ++ [reply])

/-- Histories reachable when every message authored by the agent was admitted
through shouldRespond (no HandleSystemMessage bypass). -/
inductive ReachGated (a : NaturalAgent) : List ChatMessage → Prop where
  | nil : ReachGated a []
  | other (h : List ChatMessage) (m : ChatMessage) (hr : ReachGated a h)
      (hm : (m.agentID == a.id) = false) : ReachGated a (h ++ [m])
  | reply (h : List ChatMessage) (trigger reply : ChatMessage) (d1 d2 : ℚ)
      (hr : ReachGated a h)
      (hs : shouldRespond a trigger d1 d2 h = true)
      (hid : reply.agentID = a.id) : ReachGated a (h ++ [reply])

/-- A user message (Go zero-valued fields besides the ones set). -/
def userMsg (mid content uid : String) : ChatMessage :=
  { id := mid, type := MessageType.user, content := content, agentID := "",
    userID := uid, timestamp := 0, metadata := emptyMeta }

/-- A system message. -/
def sysMsg (mid content : String) : ChatMessage :=
  { id := mid, type := MessageType.system, content := content, agentID := "",
    userID := "", timestamp := 0, metadata := emptyMeta }

/-- An agent-authored message as built by BaseAgent.SendChatMessage
(Type agent, AgentID the sender). -/
def agentMsg (mid content aid cid : String) : ChatMessage :=
  { id := mid, type := MessageType.agent, content := content, agentID := aid,
    userID := "", timestamp := 0,
    metadata := { emptyMeta with conversationID := cid } }

/-- The topics table in another iteration order the Go runtime may use for
the same map (travel iterated first). -/
def topicsTableTravelFirst : List (String × List String) :=
  [("travel", ["travel", "trip", "vacation", "journey", "adventure", "explore"]),
   ("technology", ["code", "programming", "software", "computer", "tech", "ai", "machine learning"]),
   ("philosophy", ["think", "believe", "meaning", "purpose", "existence", "truth", "reality"]),
   ("science", ["research", "study", "experiment", "theory", "hypothesis", "data"]),
   ("art", ["creative", "artistic", "design", "beautiful", "aesthetic", "music"]),
   ("politics", ["government", "policy", "election", "democracy", "rights", "law"]),
   ("health", ["health", "medical", "doctor", "medicine", "wellness", "fitness"]),
   ("food", ["food", "cooking", "recipe", "restaurant", "meal", "taste"])]

/-- Agent "agent-7" with baseResponseProbability 0 (spec Scenario D). -/
def cfg7 : NaturalAgent :=
  { id := "agent-7", name := "Agent7", personality := "", interests := [], responseChance := 0 }

/-- Scenario D message: sent by someone else, replyTo agent-7. -/
def msgD : ChatMessage :=
  { id := "m-d", type := MessageType.user, content := "hello agent seven",
    agentID := "user-9", userID := "", timestamp := 0,
    metadata := { emptyMeta with replyTo := "agent-7" } }

/-- A fresh conversation used in the roster examples. -/
def convC6 : Conversation := newConversation "conv-1" 0

/-- First message of an unregistered sender. -/
def aliceMsg : ChatMessage := userMsg "m1" "hello there" "alice"

/-- An empty Manager (pointer model). -/
def st0 : PtrModel.Manager := { heap := [], convs := [] }

/-- A Conversation value written through an escaped pointer by an external
caller. -/
def mutatedConv : Conversation := { newConversation "conv-1" 0 with topic := "mutated" }

/-- Agent used in the anti-spam histories. -/
def cfgC4 : NaturalAgent :=
  { id := "agent-1", name := "A1", personality := "", interests := [], responseChance := 1 }

/-- A system message on the stream. -/
def sysC4 : ChatMessage := sysMsg "s" "maintenance notice"

/-- agent-1 reply published by HandleSystemMessage. -/
def repC4 : ChatMessage := agentMsg "r" "Understood." "agent-1" "conv-1"

/-- Curious agent used in the gated anti-spam witness. -/
def cfgW : NaturalAgent :=
  { id := "agent-1", name := "A1", personality := "curious", interests := [], responseChance := 1 }

/-- A question from a user (relevant to a curious agent). -/
def trigW : ChatMessage := userMsg "u1" "what is this?" "user-1"

/-- agent-1 reply admitted through shouldRespond. -/
def repW : ChatMessage := agentMsg "r1" "That makes sense." "agent-1" "conv-1"

/-- Agent and self-authored message for the self-suppression instance. -/
def cfgSelfEx : NaturalAgent :=
  { id := "agent-2", name := "A2", personality := "", interests := [], responseChance := 1 }

/-- A message authored by agent-2 itself. -/
def msgSelfEx : ChatMessage := agentMsg "m2" "hello everyone" "agent-2" "conv-1"

/-- Agent receiving a self-authored system message. -/
def cfgSys : NaturalAgent :=
  { id := "agent-3", name := "A3", personality := "", interests := [], responseChance := 1 }

/-- A System-kind message whose AgentID is agent-3 itself. -/
def sysSelfMsg : ChatMessage :=
  { id := "s1", type := MessageType.system, content := "restart scheduled",
    agentID := "agent-3", userID := "", timestamp := 0, metadata := emptyMeta }

/-- Messages m1, m2, m3 appended in order in the recent-window instance. -/
def m1 : ChatMessage := userMsg "m-1" "first" "u1"

/-- Second appended message. -/
def m2 : ChatMessage := userMsg "m-2" "second" "u2"

/-- Third appended message. -/
def m3 : ChatMessage := agentMsg "m-3" "third" "agent-9" "conv-1"

/-- AddMessage only appends to the history. -/
theorem AddMessage_messages (conv : Conversation) (m : ChatMessage) (now : Nat) :
    (AddMessage conv m now).messages = conv.messages ++ [m] := rfl

/-- Appending a batch concatenates it onto the history. -/
theorem appendMessages_messages (ms : List ChatMessage) (conv : Conversation) (now : Nat) :
    (appendMessages conv ms now).messages = conv.messages ++ ms := by
  induction ms generalizing conv with
  | nil => simp [appendMessages]
  | cons m rest ih =>
      show (appendMessages (AddMessage conv m now) rest now).messages = _
      rw [ih (AddMessage conv m now), AddMessage_messages]
      simp

/-- countAgentMsgs distributes over append. -/
theorem countAgentMsgs_append (aid : String) (l₁ l₂ : List ChatMessage) :
    countAgentMsgs aid (l₁ ++ l₂) = countAgentMsgs aid l₁ + countAgentMsgs aid l₂ := by
  simp [countAgentMsgs]

/-- Dropping more of a history never increases the agent's message count. -/
theorem countAgentMsgs_drop_le (aid : String) (l : List ChatMessage) {i j : Nat}
    (hji : j ≤ i) :
    countAgentMsgs aid (l.drop i) ≤ countAgentMsgs aid (l.drop j) :=
  (List.drop_sublist_drop_left l hji).countP_le _

/-- A positive shouldRespond decision implies the agent authored at most one
of the last five history entries (the anti-spam guard). -/
theorem shouldRespond_spam_le (a : NaturalAgent) (msg : ChatMessage) (d1 d2 : ℚ)
    (h : List ChatMessage) (hs : shouldRespond a msg d1 d2 h = true) :
    countAgentMsgs a.id (last5 h) ≤ 1 := by
  unfold shouldRespond at hs
  split_ifs at hs with h1 h2 h3 h4
  any_goals simp at hs
  omega

/-- A 5-window of `h ++ [m]` is either a 5-window of `h` or a short suffix
of `h` followed by `m`. -/
theorem window_append_cases (h : List ChatMessage) (m : ChatMessage) (i : Nat) :
    ((h ++ [m]).drop i).take 5 = (h.drop i).take 5 ∨
    (h.length ≤ i + 4 ∧ i ≤ h.length ∧ ((h ++ [m]).drop i).take 5 = h.drop i ++ [m]) := by
  rcases le_or_lt i h.length with hle | hgt
  · rw [List.drop_append_eq_append_drop]
    have hm0 : i - h.length = 0 := by omega
    rw [hm0, List.drop_zero, List.take_append_eq_append_take]
    rcases le_or_lt 5 (h.length - i) with h5 | h5
    · left
      have h0 : 5 - (h.drop i).length = 0 := by
        rw [List.length_drop]; omega
      rw [h0]
      simp
    · right
      refine ⟨by omega, hle, ?_⟩
      rw [List.take_of_length_le (by rw [List.length_drop]; omega),
        List.take_of_length_le (l := [m]) (by simp [List.length_drop]; omega)]
  · left
    rw [List.drop_eq_nil_of_le (by simp; omega), List.drop_eq_nil_of_le (by omega)]

/-- Appending to an association list whose lookup misses makes the lookup hit
the appended binding. -/
theorem lookup_append_of_none (l : List (String × Nat)) (k : String) (v : Nat)
    (h : l.lookup k = none) : (l ++ [(k, v)]).lookup k = some v := by
  induction l with
  | nil => simp [List.lookup]
  | cons kv rest ih =>
      obtain ⟨a, b⟩ := kv
      rw [List.cons_append]
      by_cases hka : (k == a) = true
      · simp [List.lookup, hka] at h
      · simp only [List.lookup, hka] at h ⊢
        exact ih h

/-- Key set of the roster is untouched by touchParticipant. -/
theorem touchParticipant_keys (ps : List (String × Participant)) (pid : String) (now : Nat) :
    (touchParticipant ps pid now).map Prod.fst = ps.map Prod.fst := by
  unfold touchParticipant
  rw [List.map_map]
  apply List.map_congr_left
  intro kv _
  by_cases hk : kv.fst = pid <;> simp [hk]

/-- AddMessage never changes the set of registered participant ids. -/
theorem AddMessage_roster_keys (conv : Conversation) (m : ChatMessage) (now : Nat) :
    (AddMessage conv m now).participants.map Prod.fst
      = conv.participants.map Prod.fst := by
  unfold AddMessage
  dsimp only
  split_ifs <;> first
    | rfl
    | exact touchParticipant_keys conv.participants _ now

/-- The system-response templates are never empty. -/
theorem generateSystemResponse_ne_empty (k : Nat) :
    (generateSystemResponse k == "") = false := by
  unfold generateSystemResponse
  have h5 : k % 5 < 5 := Nat.mod_lt _ (by omega)
  rcases hr : k % 5 with _ | _ | _ | _ | n
  · decide
  · decide
  · decide
  · decide
  · rcases n with _ | n
    · decide
    · omega

/-- C1: for every incoming message and every agent, the response decision
(shouldRespond, both repo variants) returns false whenever the message's
AgentID equals the agent's own id, regardless of relevance draw, probability
draw, or history contents. -/
theorem shouldRespond_self_suppression (a : NaturalAgent) (selfID : String) (rc : ℚ)
    (msg msg2 : ChatMessage) (d1 d2 d3 : ℚ) (h1 h2 : List ChatMessage)
    (hself : msg.agentID = a.id) (hself2 : msg2.agentID = selfID) :
    shouldRespond a msg d1 d2 h1 = false ∧
    shouldRespondSimple selfID rc msg2 d3 h2 = false := by
  constructor
  · simp [shouldRespond, hself]
  · simp [shouldRespondSimple, hself2]

/-- C1 witness: agent-2 never responds to its own message. -/
theorem shouldRespond_self_suppression_inst :
    msgSelfEx.agentID = cfgSelfEx.id ∧
    (shouldRespond cfgSelfEx msgSelfEx 0 0 [] = false ∧
     shouldRespondSimple "agent-2" 1 msgSelfEx 0 [] = false) :=
  ⟨rfl, shouldRespond_self_suppression cfgSelfEx "agent-2" 1 msgSelfEx msgSelfEx
    0 0 0 [] [] rfl rfl⟩

/-- C2: detectTopic iterates a Go map, so its result depends on the map
iteration order, which Go randomizes per call: on the text "code travel"
(matching keywords of both technology and travel) one iteration order of the
same keyword table returns "technology" and another returns "travel", so the
returned label does not follow one fixed priority order across calls. -/
theorem detectTopic_depends_on_iteration_order :
    List.Perm topicsTableTravelFirst topicsTable ∧
    detectTopicWith topicsTable "code travel" = "technology" ∧
    detectTopicWith topicsTableTravelFirst "code travel" = "travel" := by
  refine ⟨by decide, by decide, by decide⟩

/-- C3 counterexample: the first HandleMessage variant in llm.go substitutes
a fixed apology for the failed generation and publishes it. -/
theorem llm_failure_publishes_apology :
    HandleMessageLLMv1 (Except.error "request timeout") "conv-1"
      = some (llmApology, "conv-1") ∧ llmApology ≠ "" := by
  exact ⟨rfl, by decide⟩

/-- C3 (amended): the second HandleMessage variant in llm.go publishes
nothing on any generation error; the first variant publishes the apology. -/
theorem llm_failure_v2_publishes_nothing (e cid : String) :
    HandleMessageLLMv2 (Except.error e) cid = none := rfl

/-- C5 counterexample: with baseResponseProbability 0, a replyTo-addressed
message from someone else, an empty history and a probability draw of
exactly 0.0, shouldRespond returns true (the Go gate refuses only when
draw > chance, so a draw equal to the chance passes). -/
theorem probability_gate_zero_draw_responds :
    shouldRespond cfg7 msgD 0 0 [] = true := by decide

/-- C5 (amended): when the relevance gate passes, the sender is not the agent
itself and the anti-spam count is below 2, the decision is positive exactly
when the draw is less than or equal to baseResponseProbability (not strictly
less); hence with probability 0.0 every draw above 0 is refused but a draw
of exactly 0.0 passes. -/
theorem probability_gate_le (a : NaturalAgent) (msg : ChatMessage) (d1 d2 : ℚ)
    (hist : List ChatMessage)
    (hrel : IsRelevantToAgent msg a.id a.interests a.personality d1 = true)
    (hself : (msg.agentID == a.id) = false)
    (hspam : countAgentMsgs a.id (last5 hist) < 2) :
    (shouldRespond a msg d1 d2 hist = true ↔ d2 ≤ a.responseChance) := by
  unfold shouldRespond
  rw [hrel, hself]
  simp only [Bool.not_true, Bool.false_eq_true, if_false]
  split_ifs with hgt h2
  · simp only [Bool.false_eq_true, false_iff]
    exact not_le.mpr hgt
  · omega
  · simp only [true_iff]
    exact not_lt.mp hgt

/-- C5 witness: Scenario D inputs with draw exactly 0.0. -/
theorem probability_gate_le_inst :
    shouldRespond cfg7 msgD 0 0 [] = true ↔ (0:ℚ) ≤ cfg7.responseChance :=
  probability_gate_le cfg7 msgD 0 0 [] (by decide) (by decide) (by decide)

/-- C7 counterexample: GetRecentMessages with limit -1 on a one-message
conversation evaluates the Go slice expression Messages[2:] on a slice of
length 1 and panics (modelled as none), instead of returning an empty
sequence. -/
theorem recent_negative_limit_panics :
    GetRecentMessages [aliceMsg] (-1) = none := by decide

/-- C7 (amended): GetRecentMessages with limit 0 returns the empty sequence
without failing, but every negative limit makes the slice expression
Messages[len-limit:] out of range, i.e. a panic. -/
theorem recent_nonpositive_limit (msgs msgs2 : List ChatMessage) (lim : Int)
    (hneg : lim < 0) :
    GetRecentMessages msgs 0 = some [] ∧ GetRecentMessages msgs2 lim = none := by
  constructor
  · unfold GetRecentMessages
    split_ifs with h1 h2
    · have hl : msgs.length = 0 := by omega
      rw [List.length_eq_zero.mp hl]
    · have h0 : msgs.length - (0:Int).toNat = msgs.length := by omega
      rw [h0, List.drop_length]
    · omega
  · unfold GetRecentMessages
    rw [if_neg (by omega), if_neg (by omega)]

/-- C7 witness: limit 0 and limit -1 on concrete histories. -/
theorem recent_nonpositive_limit_inst :
    (-1:Int) < 0 ∧
    (GetRecentMessages [] 0 = some [] ∧ GetRecentMessages [aliceMsg] (-1) = none) :=
  ⟨by decide, recent_nonpositive_limit [] [aliceMsg] (-1) (by decide)⟩

/-- C8: appending m1..mk in order to a fresh conversation and asking for the
last N > 0 messages returns exactly the last min(N, k) appended messages,
oldest first, with no panic. -/
theorem recent_returns_last_min (cid : String) (t now : Nat) (ms : List ChatMessage)
    (N : Int) (hN : 0 < N) :
    GetRecentMessages ((appendMessages (newConversation cid t) ms now).messages) N
        = some (ms.drop (ms.length - N.toNat))
      ∧ (ms.drop (ms.length - N.toNat)).length = min N.toNat ms.length := by
  have hmsgs : (appendMessages (newConversation cid t) ms now).messages = ms := by
    rw [appendMessages_messages]
    simp [newConversation]
  rw [hmsgs]
  constructor
  · unfold GetRecentMessages
    split_ifs with h1 h2
    · have h0 : ms.length - N.toNat = 0 := by omega
      rw [h0, List.drop_zero]
    · rfl
    · omega
  · rw [List.length_drop]
    omega

/-- C8 witness: three messages appended, window 2 returns the last two in
order. -/
theorem recent_returns_last_min_inst :
    (0:Int) < 2 ∧
    (GetRecentMessages ((appendMessages (newConversation "conv-1" 0) [m1, m2, m3] 5).messages) 2
        = some ([m1, m2, m3].drop ([m1, m2, m3].length - (2:Int).toNat))
      ∧ ([m1, m2, m3].drop ([m1, m2, m3].length - (2:Int).toNat)).length
        = min (2:Int).toNat [m1, m2, m3].length) :=
  ⟨by decide, recent_returns_last_min "conv-1" 0 5 [m1, m2, m3] 2 (by decide)⟩

/-- C6 counterexample: processing the first message of the unregistered
sender "alice" through the flow coordinator entry point leaves the
participant roster without any entry for "alice" — no upsert happens. -/
theorem handleMessage_does_not_upsert_sender :
    (handleMessage convC6 aliceMsg topicsTable moodsTable 1).participants.lookup "alice"
      = none := by decide

/-- C6 (amended): the flow coordinator entry point never changes the set of
registered participants: it appends the message, updates topic/mood, and
refreshes lastSeen only for a sender already present; unseen senders are not
inserted (participants enter the roster only via AddParticipant /
RegisterParticipant). -/
theorem handleMessage_preserves_roster_keys (conv : Conversation) (m : ChatMessage)
    (topicOrder moodOrder : List (String × List String)) (now : Nat) :
    (handleMessage conv m topicOrder moodOrder now).participants.map Prod.fst
      = conv.participants.map Prod.fst := by
  unfold handleMessage
  dsimp only
  split_ifs <;> simp [AddMessage_roster_keys]

/-- C9 counterexample: GetConversationContext hands out the Store's own
Conversation pointer; after a caller writes through that pointer (outside any
Store method), a subsequent read through the Store observes the mutated
topic, so the accessor does not return a copy or immutable view. -/
theorem store_accessor_exposes_internal_state :
    PtrModel.observeTopic (PtrModel.GetConversationContext st0 "conv-1" 0).2 "conv-1" 0 = ""
    ∧ PtrModel.observeTopic
        (PtrModel.writeThrough (PtrModel.GetConversationContext st0 "conv-1" 0).2
          (PtrModel.GetConversationContext st0 "conv-1" 0).1 mutatedConv)
        "conv-1" 0 = "mutated" := by
  exact ⟨by decide, by decide⟩

/-- C9 (amended): GetConversationContext returns exactly the pointer stored
in the Manager's conversations map (no copy is made), so callers share
mutable state with the Store. -/
theorem getConversationContext_returns_stored_pointer (st : PtrModel.Manager)
    (cid : String) (now : Nat) :
    (PtrModel.GetConversationContext st cid now).2.convs.lookup cid
      = some (PtrModel.GetConversationContext st cid now).1 := by
  unfold PtrModel.GetConversationContext PtrModel.GetOrCreateConversation
  cases hl : st.convs.lookup cid with
  | some p => simp [hl]
  | none => simpa [hl] using lookup_append_of_none st.convs cid st.heap.length hl

/-- C10: a System-kind message is handled by HandleSystemMessage, which
publishes the generated (always non-empty) canned response without consulting
shouldRespond: even for a message authored by the agent itself — which
shouldRespond would refuse — a reply is published, for every draw and
history. -/
theorem handleSystemMessage_bypasses_gates (a : NaturalAgent) (m : ChatMessage)
    (k : Nat) (d1 d2 : ℚ) (hist : List ChatMessage)
    (hsys : m.type = MessageType.system) (hself : m.agentID = a.id) :
    HandleSystemMessage k m = some (generateSystemResponse k, m.metadata.conversationID)
      ∧ shouldRespond a m d1 d2 hist = false := by
  constructor
  · unfold HandleSystemMessage
    dsimp only
    rw [generateSystemResponse_ne_empty]
    simp
  · have hrel : IsRelevantToAgent m a.id a.interests a.personality d1 = true := by
      unfold IsRelevantToAgent
      rw [hsys]
      rfl
    simp [shouldRespond, hrel, hself]

/-- C10 witness: agent-3 receiving its own system message still publishes. -/
theorem handleSystemMessage_bypasses_gates_inst :
    sysSelfMsg.type = MessageType.system ∧ sysSelfMsg.agentID = cfgSys.id ∧
    (HandleSystemMessage 0 sysSelfMsg
        = some (generateSystemResponse 0, sysSelfMsg.metadata.conversationID)
      ∧ shouldRespond cfgSys sysSelfMsg 0 0 [] = false) :=
  ⟨rfl, rfl, handleSystemMessage_bypasses_gates cfgSys sysSelfMsg 0 0 0 [] rfl rfl⟩

/-- C4 counterexample: replies emitted through HandleSystemMessage bypass the
anti-spam cap, so the history [system, reply, system, reply, system, reply]
is reachable by the message-processing steps, and its window of the last 5
entries contains 3 messages authored by agent-1. -/
theorem antispam_window_violated_via_system_path :
    Reach cfgC4 [sysC4, repC4, sysC4, repC4, sysC4, repC4] ∧
    countAgentMsgs cfgC4.id
      (([sysC4, repC4, sysC4, repC4, sysC4, repC4].drop 1).take 5) = 3 := by
  constructor
  · have h1 : Reach cfgC4 [sysC4] := Reach.other [] sysC4 Reach.nil (by decide)
    have h2 : Reach cfgC4 [sysC4, repC4] :=
      Reach.sysReply [sysC4] sysC4 repC4 h1 rfl (by decide) (by simp) rfl
    have h3 : Reach cfgC4 [sysC4, repC4, sysC4] :=
      Reach.other [sysC4, repC4] sysC4 h2 (by decide)
    have h4 : Reach cfgC4 [sysC4, repC4, sysC4, repC4] :=
      Reach.sysReply [sysC4, repC4, sysC4] sysC4 repC4 h3 rfl (by decide) (by simp) rfl
    have h5 : Reach cfgC4 [sysC4, repC4, sysC4, repC4, sysC4] :=
      Reach.other [sysC4, repC4, sysC4, repC4] sysC4 h4 (by decide)
    exact Reach.sysReply [sysC4, repC4, sysC4, repC4, sysC4] sysC4 repC4 h5 rfl
      (by decide) (by simp) rfl
  · decide

/-- C4 (amended): over histories in which every message authored by the
agent was admitted through shouldRespond (no HandleSystemMessage bypass),
every window of 5 consecutive history entries contains at most 2 messages
authored by that agent. -/
theorem antispam_window_gated (a : NaturalAgent) (h : List ChatMessage)
    (hr : ReachGated a h) :
    ∀ i, countAgentMsgs a.id ((h.drop i).take 5) ≤ 2 := by
  induction hr with
  | nil =>
      intro i
      simp [countAgentMsgs]
  | other h0 m hr0 hm ih =>
      intro i
      rcases window_append_cases h0 m i with hA | ⟨hlen, hile, hB⟩
      · rw [hA]
        exact ih i
      · rw [hB, countAgentMsgs_append]
        have hcm : countAgentMsgs a.id [m] = 0 := by
          simp [countAgentMsgs, List.countP_cons, hm]
        have hdl : (h0.drop i).take 5 = h0.drop i :=
          List.take_of_length_le (by rw [List.length_drop]; omega)
        have hih := ih i
        rw [hdl] at hih
        omega
  | reply h0 trigger reply d1 d2 hr0 hs hid ih =>
      intro i
      rcases window_append_cases h0 reply i with hA | ⟨hlen, hile, hB⟩
      · rw [hA]
        exact ih i
      · rw [hB, countAgentMsgs_append]
        have hcm : countAgentMsgs a.id [reply] = 1 := by
          simp [countAgentMsgs, List.countP_cons, hid]
        have hspam := shouldRespond_spam_le a trigger d1 d2 h0 hs
        have hmono : countAgentMsgs a.id (h0.drop i) ≤ countAgentMsgs a.id (last5 h0) :=
          countAgentMsgs_drop_le a.id h0 (by omega)
        omega

/-- C4 witness: a user question followed by one admitted reply; every window
holds at most 2 agent messages. -/
theorem antispam_window_gated_inst :
    countAgentMsgs cfgW.id (([trigW, repW].drop 0).take 5) ≤ 2 :=
  antispam_window_gated cfgW [trigW, repW]
    (ReachGated.reply [trigW] trigW repW 1 0
      (ReachGated.other [] trigW ReachGated.nil (by decide))
      (by decide) rfl) 0

end Philoking

